import Mathlib

/-!
Verification of the Playwright web-proxy server (`server.py`,
`tiktok_script_integrated.py`, `util.py`, `bk/bk.py`).

The Python code is shallowly embedded: each handler of the server is
translated into a pure Lean function over an explicit server state, with the
outcomes of fallible browser operations (navigation, screenshot capture,
cookie clearing, the integrated workflow script) supplied as environment
parameters.  Exceptions are modelled with `Except`: a Python `raise` becomes
an `Except.error`, a `try/except` becomes a `match` on the `Except` value,
and a `finally` block is applied on every branch of that match.  Strings are
kept verbatim where they matter for the observable protocol; keyboard keys
are restricted to the ASCII range (Python's `str.isupper` coincides with
`Char.isUpper` there).
-/

/-! ## Outbound protocol messages (`safe_send_message` payloads) -/

/-- The `status` field of a `script-status` event. -/
inductive ScriptStatus where
  | starting
  | running
  | success
  | warning
  | error
  | completed
deriving DecidableEq, Repr

/-- Screenshot payloads: either live capture bytes or the blank placeholder
image that `take_screenshot` synthesizes with `PIL.Image.new` on repeated
failure (the payload of a live capture is abstracted to a tag). -/
inductive ImageBytes where
  | live (data : Nat)
  | placeholder (width height : Nat)
deriving DecidableEq, Repr

/-- Outbound WebSocket messages of `server.py`. -/
inductive OutMsg where
  | scriptStatus (status : ScriptStatus) (message : String)
  | screenshot (img : ImageBytes)
  | navigationComplete (url : String)
  | cookieClearResult (success : Bool) (message : String)
  | errorMsg (message : String)
deriving DecidableEq, Repr

/-! ## Keyboard dispatch (`handle_message`, `keydown` branch, server.py 182-220)

The raw actions issued against `page.keyboard`. -/

inductive KeyAction where
  | typeText (s : String)
  | press (k : String)
  | down (m : String)
  | up (m : String)
deriving DecidableEq, Repr

/-- A `keydown` command: `data.get('key')` plus the four modifier flags. -/
structure KeyEvent where
  key : String
  ctrlKey : Bool
  shiftKey : Bool
  altKey : Bool
  metaKey : Bool
deriving DecidableEq, Repr

/-- The `modifiers` list built at server.py 186-190: held modifiers in the
fixed order Control, Shift, Alt, Meta. -/
def modifiersOf (e : KeyEvent) : List String :=
  (if e.ctrlKey then ["Control"] else []) ++
  (if e.shiftKey then ["Shift"] else []) ++
  (if e.altKey then ["Alt"] else []) ++
  (if e.metaKey then ["Meta"] else [])

/-- `len(key) == 1 and key.isupper()` (server.py 196), for ASCII keys,
phrased over the string's character list. -/
def singleUpper (s : String) : Bool :=
  s.data.length == 1 && s.data.all Char.isUpper

/-- The `keydown` branch of `handle_message` (server.py 192-220): the exact
if/elif cascade deciding between text-insertion (`keyboard.type`), raw press
(`keyboard.press`) and the modifier chain (`keyboard.down`/`press`/`up`). -/
def keydownDispatch (e : KeyEvent) : List KeyAction :=
  if e.key = "@" then
    [KeyAction.typeText "@"]
  else if singleUpper e.key then
    [KeyAction.typeText e.key]
  else if e.key = "Backspace" ∨ e.key = "Delete" then
    [KeyAction.press e.key]
  else if modifiersOf e ≠ [] then
    (modifiersOf e).map KeyAction.down ++ [KeyAction.press e.key] ++
      (modifiersOf e).reverse.map KeyAction.up
  else if 1 < e.key.length then
    [KeyAction.press e.key]
  else
    [KeyAction.typeText e.key]

/-! ## Server state (`PlaywrightWebProxyServer`, server.py 23-34)

Page handles are identified by the order of their creation; `closedPages`
records every handle that has been closed by `page.close()`.  Browser-level
operations (health check, page creation) are taken to succeed in this
embedding; the environment parameters below inject failures of the
page-level operations the claims are about. -/

structure ServerState where
  page : Option Nat
  closedPages : List Nat
  nextPageId : Nat
  scriptRunning : Bool
  scriptTaskLive : Bool
  taskCount : Nat
deriving DecidableEq, Repr

/-- `create_new_page` (server.py 288-357), success path: close the existing
page if there is one (best-effort), then open a fresh page with the standard
viewport and headers and re-register the observers. -/
def createNewPage (s : ServerState) : ServerState :=
  { s with
    page := some s.nextPageId
    closedPages :=
      match s.page with
      | some p => p :: s.closedPages
      | none => s.closedPages
    nextPageId := s.nextPageId + 1 }

/-- `start_tiktok_script` (server.py 564-587): reject with a busy `error`
status when `script_running` is already set; otherwise set the flag, emit
`starting`, and create the background task (`asyncio.create_task` is taken
to succeed, as in the source's happy path). -/
def startTiktokScript (s : ServerState) : ServerState × List OutMsg :=
  if s.scriptRunning then
    (s, [OutMsg.scriptStatus .error "脚本已在运行中"])
  else
    ({ s with scriptRunning := true, scriptTaskLive := true,
              taskCount := s.taskCount + 1 },
     [OutMsg.scriptStatus .starting "正在启动TikTok脚本..."])

/-- The `start-script` branch of `handle_message` (server.py 111-114): it
first recreates the page via `create_new_page`, and only then calls
`start_tiktok_script`, where the busy check lives. -/
def handleStartScript (s : ServerState) : ServerState × List OutMsg :=
  startTiktokScript (createNewPage s)

/-! ## The background run (`run_tiktok_script_with_updates`, server.py 589-623) -/

/-- How the integrated workflow script terminates when invoked from the
background task: normally, with an `Exception` (caught by the handler at
server.py 616), or with a `BaseException` such as a task cancellation
(which skips the `except Exception` handler but not the `finally`). -/
inductive ScriptOutcome where
  | ok
  | exc (msg : String)
  | baseExc (msg : String)
deriving DecidableEq, Repr

/-- Environment of one background run: whether the cookie-file load inside
`load_cookies_for_script` fails (a caught, non-fatal condition), and how the
workflow script itself terminates. -/
structure RunEnv where
  cookiesLoadFails : Bool
  outcome : ScriptOutcome
deriving DecidableEq, Repr

/-- `run_tiktok_script_with_updates` (server.py 589-623).  Returns the new
server state, the status messages sent to the initiating client, and the
exception (if any) escaping to the task runner.  The `finally` block
(server.py 621-623) clears `script_running` and `script_task` on every
branch; the detailed status stream emitted from inside the workflow script
is abstracted away, only the wrapper's own messages are tracked. -/
def runTiktokScriptWithUpdates (s : ServerState) (env : RunEnv) :
    ServerState × List OutMsg × Option String :=
  let cleared := { s with scriptRunning := false, scriptTaskLive := false }
  let runningMsg := OutMsg.scriptStatus .running "脚本正在执行中..."
  let cookieMsg :=
    if env.cookiesLoadFails then
      OutMsg.scriptStatus .running "加载 cookies 失败，继续执行..."
    else
      OutMsg.scriptStatus .running "已加载 cookies"
  match s.page with
  | none =>
      (cleared,
       [runningMsg, OutMsg.scriptStatus .error "脚本执行失败: 浏览器页面未初始化"],
       none)
  | some _ =>
      match env.outcome with
      | .ok =>
          (cleared,
           [runningMsg, cookieMsg, OutMsg.scriptStatus .completed "脚本执行完成"],
           none)
      | .exc e =>
          (cleared,
           [runningMsg, cookieMsg,
            OutMsg.scriptStatus .error ("脚本执行失败: " ++ e)],
           none)
      | .baseExc e =>
          (cleared, [runningMsg, cookieMsg], some e)

/-! ## Screenshot capture (`take_screenshot`, server.py 474-501) -/

/-- Environment of one `take_screenshot` call: the outcome of the first
capture attempt (including the health check that precedes it) and the
outcome of the recreate-page-and-retry attempt. -/
structure ScreenshotEnv where
  firstCapture : Except String ImageBytes
  recreateAndRetry : Except String ImageBytes
deriving Repr

/-- `take_screenshot` (server.py 474-501): try a live capture; on any
exception recreate the page and retry once; on a second exception synthesize
a blank 1280x720 placeholder image (`Image.new('RGB', (1280, 720))`) and
return its encoding.  The result is `Except`-typed so that an uncaught
exception would be visible as `.error`. -/
def takeScreenshot (env : ScreenshotEnv) : Except String ImageBytes :=
  match env.firstCapture with
  | .ok img => .ok img
  | .error _ =>
      match env.recreateAndRetry with
      | .ok img => .ok img
      | .error _ => .ok (ImageBytes.placeholder 1280 720)

/-! ## Cookie clearing (`clear_cookies`, server.py 503-522) -/

/-- `clear_cookies` (server.py 503-522).  `self.page.context` on a `None`
page raises an `AttributeError`, which the `except Exception` handler
catches; `clearOpFails` injects a failure of `context.clear_cookies()`
itself.  Either way the handler replies `success:false` and no exception
reaches the connection handler (`.error` is never returned). -/
def clearCookies (page : Option Nat) (clearOpFails : Bool) :
    Except String (List OutMsg) :=
  let attempt : Except String (List OutMsg) :=
    match page with
    | none => .error "AttributeError"
    | some _ =>
        if clearOpFails then .error "clear failed"
        else .ok [OutMsg.cookieClearResult true "已清空cookies"]
  match attempt with
  | .ok msgs => .ok msgs
  | .error e => .ok [OutMsg.cookieClearResult false ("清空cookies失败: " ++ e)]

/-! ## Manual navigation (`navigate_to_url`, server.py 448-472, and the
`navigate` branch of `handle_message`, server.py 116-130) -/

/-- The `wait_until` argument of a Playwright `page.goto` /
`wait_for_load_state` call. -/
inductive WaitUntil where
  | domcontentloaded
  | load
  | networkidle
  | commit
deriving DecidableEq, Repr

/-- One `page.goto` invocation with its `wait_until` and `timeout` (ms). -/
structure GotoCall where
  url : String
  waitUntil : WaitUntil
  timeoutMs : Nat
deriving DecidableEq, Repr

/-- Page-level operations performed while handling a `navigate` command. -/
inductive NavOp where
  | ensureReady
  | newPage
  | gotoCall (g : GotoCall)
deriving DecidableEq, Repr

/-- Environment of one `navigate_to_url` call: whether the first `goto`
throws, and whether the retry `goto` (after `create_new_page`) throws. -/
structure NavEnv where
  firstGotoFails : Bool
  retryGotoFails : Bool
deriving DecidableEq, Repr

/-- The single `goto` configuration used by `navigate_to_url` (server.py
457-459 and 466-468): `timeout=15000`, `wait_until='domcontentloaded'`. -/
def navGoto (url : String) : GotoCall :=
  { url := url, waitUntil := .domcontentloaded, timeoutMs := 15000 }

/-- `navigate_to_url` (server.py 448-472): ensure the browser is ready, then
`goto` with `wait_until='domcontentloaded'` and a 15s timeout; on any
exception, `create_new_page` and retry the same `goto` once; a second
failure propagates (`raise retry_error`).  Returns the trace of page-level
operations and the escaping exception, if any. -/
def navigateToUrl (url : String) (env : NavEnv) :
    List NavOp × Option String :=
  if env.firstGotoFails then
    if env.retryGotoFails then
      ([NavOp.ensureReady, NavOp.gotoCall (navGoto url),
        NavOp.newPage, NavOp.gotoCall (navGoto url)],
       some "导航失败")
    else
      ([NavOp.ensureReady, NavOp.gotoCall (navGoto url),
        NavOp.newPage, NavOp.gotoCall (navGoto url)],
       none)
  else
    ([NavOp.ensureReady, NavOp.gotoCall (navGoto url)], none)

/-- The `navigate` branch of `handle_message` (server.py 116-130):
`create_new_page`, then `navigate_to_url`, then `take_screenshot`, then send
`navigation-complete` followed by the `screenshot` event.  An exception from
`navigate_to_url` is caught by the handler's top-level guard (server.py
229-233) and turned into a single `error` reply. -/
def handleNavigate (url : String) (env : NavEnv) (shot : ScreenshotEnv) :
    List NavOp × List OutMsg :=
  let nav := navigateToUrl url env
  let ops := NavOp.newPage :: nav.1
  match nav.2 with
  | some e => (ops, [OutMsg.errorMsg e])
  | none =>
      match takeScreenshot shot with
      | .ok img => (ops, [OutMsg.navigationComplete url, OutMsg.screenshot img])
      | .error e => (ops, [OutMsg.errorMsg e])

/-! ## Workflow initial navigation (tiktok_script_integrated.py 113-203)

The retry ladder of `complete_tiktok_shop_rating_filter_integrated`, step
one: up to `max_retries = 3` `goto` attempts against the homepage URL, each
with a more relaxed `wait_until` and a larger timeout, every exception
caught inside the loop. -/

/-- The homepage URL built at tiktok_script_integrated.py 116 with
`shop_region = 'TH'`. -/
def homepageUrl : String :=
  "https://seller.tiktokshopglobalselling.com/homepage?shop_region=TH"

/-- Environment of one loop iteration: which of the fallible page operations
of that iteration throw, and the two page probes the code consults. -/
structure NavAttemptEnv where
  gotoFails : Bool
  settleFails : Bool
  domWaitFails : Bool
  titleFails : Bool
  titleNonempty : Bool
  urlFails : Bool
  urlHasTiktokshop : Bool
deriving DecidableEq, Repr

/-- The `goto` parameters chosen from `retry_count`
(tiktok_script_integrated.py 129-136): attempt 1 is `domcontentloaded`/90s,
attempt 2 is `load`/120s, any later attempt is `commit`/150s. -/
def attemptCall (rc : Nat) : GotoCall :=
  if rc = 1 then { url := homepageUrl, waitUntil := .domcontentloaded, timeoutMs := 90000 }
  else if rc = 2 then { url := homepageUrl, waitUntil := .load, timeoutMs := 120000 }
  else { url := homepageUrl, waitUntil := .commit, timeoutMs := 150000 }

/-- The stabilization ladder after a successful `goto`
(tiktok_script_integrated.py 140-186): a fixed settle wait, else a
DOM-content-loaded wait plus a non-empty-title check, else — on the final
attempt only — a forced wait plus a URL-substring check; every exception is
caught.  Returns the resulting `page_loaded` flag. -/
def stabilize (isLast : Bool) (env : NavAttemptEnv) : Bool :=
  if env.settleFails then
    if !env.domWaitFails && !env.titleFails && env.titleNonempty then true
    else if isLast then
      if !env.urlFails && !env.titleFails then env.urlHasTiktokshop else false
    else false
  else true

/-- The `except Exception as goto_e` handler
(tiktok_script_integrated.py 188-203): on a non-final attempt just back off;
on the final attempt probe the current URL (exceptions swallowed by the bare
`except: pass`) and treat a TikTok-Shop URL as loaded. -/
def gotoFailHandler (rc : Nat) (env : NavAttemptEnv) : Bool :=
  if rc < 3 then false
  else if !env.urlFails then env.urlHasTiktokshop else false

/-- The raw `goto` of one attempt, as a fallible operation. -/
def gotoRaw (env : NavAttemptEnv) : Except String Unit :=
  if env.gotoFails then .error "页面访问失败" else .ok ()

/-- The body of one loop iteration at (already incremented) `retry_count`
`rc`: the `try` around the `goto` with its stabilization ladder, and the
`except` handler.  Both branches return a `page_loaded` value; the `.ok`
result reflects that the source catches every exception here. -/
def attemptBody (rc : Nat) (env : NavAttemptEnv) : Except String Bool :=
  match gotoRaw env with
  | .ok _ => .ok (stabilize (rc == 3) env)
  | .error _ => .ok (gotoFailHandler rc env)

/-- The `while retry_count < max_retries and not page_loaded` loop
(tiktok_script_integrated.py 123-203), with `fuel` bounding the iteration
count (three iterations always suffice because `retry_count` grows by one
per iteration).  An `Except.error` from the body would abort the loop and
the workflow step. -/
def navLoop (envs : Nat → NavAttemptEnv) :
    Nat → Nat → Bool → List GotoCall → Except String (Bool × List GotoCall)
  | 0, _, pl, tr => .ok (pl, tr)
  | fuel + 1, rc, pl, tr =>
      if rc < 3 ∧ pl = false then
        match attemptBody (rc + 1) (envs (rc + 1)) with
        | .error e => .error e
        | .ok pl' => navLoop envs fuel (rc + 1) pl' (tr ++ [attemptCall (rc + 1)])
      else .ok (pl, tr)

/-- The whole initial-navigation step: the retry loop started with
`retry_count = 0`, `page_loaded = False`.  Returns the final `page_loaded`
flag and the trace of `goto` attempts; `.ok` means the step ran to its end
(the workflow continues to step two) rather than aborting. -/
def initialNavigation (envs : Nat → NavAttemptEnv) :
    Except String (Bool × List GotoCall) :=
  navLoop envs 3 0 false []

/-- The full three-entry goto ladder: `domcontentloaded`/90s, `load`/120s,
`commit`/150s, all against the homepage URL. -/
def ladderCalls : List GotoCall :=
  [ { url := homepageUrl, waitUntil := .domcontentloaded, timeoutMs := 90000 },
    { url := homepageUrl, waitUntil := .load, timeoutMs := 120000 },
    { url := homepageUrl, waitUntil := .commit, timeoutMs := 150000 } ]

/-! ## Date computation (tiktok_script_integrated.py 351-354)

`today = datetime.now(); seven_days_ago = today - timedelta(days=7);
today_day = today.day; seven_days_ago_day = seven_days_ago.day`.
`timedelta` subtraction is exact Gregorian calendar arithmetic, embedded
here as seven applications of the calendar predecessor. -/

/-- A Gregorian calendar date. -/
structure Date where
  year : Nat
  month : Nat
  day : Nat
deriving DecidableEq, Repr

/-- Gregorian leap-year rule. -/
def isLeapYear (y : Nat) : Bool :=
  (y % 4 == 0 && y % 100 != 0) || y % 400 == 0

/-- Number of days in month `m` of year `y`. -/
def daysInMonth (y m : Nat) : Nat :=
  if m = 2 then (if isLeapYear y then 29 else 28)
  else if m = 4 ∨ m = 6 ∨ m = 9 ∨ m = 11 then 30
  else 31

/-- The month preceding month `m` of year `y`, as a `(year, month)` pair. -/
def prevMonthOf (y m : Nat) : Nat × Nat :=
  if m = 1 then (y - 1, 12) else (y, m - 1)

/-- The calendar day before `d`. -/
def predDate (d : Date) : Date :=
  if 2 ≤ d.day then { d with day := d.day - 1 }
  else
    let p := prevMonthOf d.year d.month
    { year := p.1, month := p.2, day := daysInMonth p.1 p.2 }

/-- `d - timedelta(days=n)`: `n` applications of the calendar predecessor. -/
def subDays : Date → Nat → Date
  | d, 0 => d
  | d, n + 1 => subDays (predDate d) n

/-- The target date window computed at workflow start
(tiktok_script_integrated.py 351-354): the bare day-of-month of today and of
the date exactly seven days earlier. -/
def dateWindow (today : Date) : Nat × Nat :=
  (today.day, (subDays today 7).day)

/-! ## Image recompression (`low_quality`, util.py 5-33) -/

/-- The PIL image modes `low_quality` distinguishes. -/
inductive PILMode where
  | RGB
  | RGBA
  | L
  | P
deriving DecidableEq, Repr

/-- A PIL image, abstracted to its dimensions and mode. -/
structure PILImage where
  width : Nat
  height : Nat
  mode : PILMode
deriving DecidableEq, Repr

/-- `Image.resize` changes only the dimensions. -/
def resize (img : PILImage) (w h : Nat) : PILImage :=
  { img with width := w, height := h }

/-- `low_quality` (util.py 5-33): normalize the mode (RGBA is pasted onto a
white RGB background of the same size; anything that is neither RGB nor L is
converted to RGB), downsample to 70% of each dimension
(`int(original * 0.7)`; Python evaluates this in binary floating point,
which can differ from exact `7 * n / 10` by one for some sizes — the final
result does not depend on the intermediate value), then resize back to the
original size and re-encode as JPEG. -/
def lowQuality (img : PILImage) : PILImage :=
  let image :=
    match img.mode with
    | .RGBA => { img with mode := PILMode.RGB }
    | .RGB => img
    | .L => img
    | _ => { img with mode := PILMode.RGB }
  let originalWidth := image.width
  let originalHeight := image.height
  let reducedWidth := 7 * originalWidth / 10
  let reducedHeight := 7 * originalHeight / 10
  let imageReduced := resize image reducedWidth reducedHeight
  resize imageReduced originalWidth originalHeight

/-! ## Theorems -/

/-- Claim C2 (counterexample): for `key='A'` with `ctrlKey=true` — a key that
is not `'@'`, not Backspace/Delete, and not a single uppercase letter with
NO modifiers — the dispatcher emits a text-insertion of `'A'`, not the
modifier chain Control-down / press / Control-up: the uppercase-letter
branch at server.py 196 carries no modifier condition and precedes the
modifier-chain branch. -/
theorem keydown_ctrl_upper_types_text_cx :
    keydownDispatch ⟨"A", true, false, false, false⟩ =
        [KeyAction.typeText "A"] ∧
    keydownDispatch ⟨"A", true, false, false, false⟩ ≠
        [KeyAction.down "Control", KeyAction.press "A", KeyAction.up "Control"] := by
  constructor <;> decide

/-- Claim C2 (amended): for every keydown whose key is not `'@'`, not a
single uppercase letter (with or without modifiers), and not
Backspace/Delete, if at least one modifier flag is set the dispatcher
presses the held modifiers down in the fixed order Control, Shift, Alt,
Meta, presses the main key, and releases the modifiers in reverse order. -/
theorem keydown_modifier_chain (e : KeyEvent)
    (h1 : e.key ≠ "@") (h2 : singleUpper e.key = false)
    (h3 : e.key ≠ "Backspace") (h4 : e.key ≠ "Delete")
    (h5 : modifiersOf e ≠ []) :
    keydownDispatch e =
      (modifiersOf e).map KeyAction.down ++ [KeyAction.press e.key] ++
        (modifiersOf e).reverse.map KeyAction.up := by
  unfold keydownDispatch
  rw [if_neg h1, if_neg (by simp [h2]), if_neg (not_or.mpr ⟨h3, h4⟩), if_pos h5]

/-- Witness for `keydown_modifier_chain`: Ctrl+Meta+Enter produces the chain
Control-down, Meta-down, Enter-press, Meta-up, Control-up. -/
theorem keydown_modifier_chain_w :
    keydownDispatch ⟨"Enter", true, false, false, true⟩ =
      [KeyAction.down "Control", KeyAction.down "Meta", KeyAction.press "Enter",
       KeyAction.up "Meta", KeyAction.up "Control"] :=
  (keydown_modifier_chain ⟨"Enter", true, false, false, true⟩
    (by decide) (by decide) (by decide) (by decide) (by decide)).trans (by decide)

/-- Claim C3: for `key='Backspace'` or `key='Delete'`, with any modifier
flags, the dispatcher performs exactly one raw key-press of that key — never
a text-insertion and never the modifier chain (the deletion branch at
server.py 199-201 precedes the modifier branch). -/
theorem keydown_backspace_delete_raw_press (e : KeyEvent)
    (h : e.key = "Backspace" ∨ e.key = "Delete") :
    keydownDispatch e = [KeyAction.press e.key] := by
  unfold keydownDispatch
  rcases h with h | h <;>
    rw [if_neg (by simp [h]), if_neg (by simp [h, singleUpper]),
        if_pos (by simp [h])]

/-- Witness for `keydown_backspace_delete_raw_press`: Shift+Backspace is a
raw press of Backspace alone. -/
theorem keydown_backspace_delete_raw_press_w :
    keydownDispatch ⟨"Backspace", false, true, false, false⟩ =
      [KeyAction.press "Backspace"] :=
  keydown_backspace_delete_raw_press ⟨"Backspace", false, true, false, false⟩
    (Or.inl rfl)

/-- A busy server: page 0 is the in-flight run's page, `script_running` is
set, one background task is live. -/
def busyState : ServerState :=
  { page := some 0, closedPages := [], nextPageId := 1,
    scriptRunning := true, scriptTaskLive := true, taskCount := 1 }

/-- Claim C1 (counterexample): a `start-script` arriving while the running
flag is set does send the busy `error` status and creates no second task,
but it does NOT leave the in-flight run untouched: `handle_message` calls
`create_new_page` (server.py 113) before the busy check in
`start_tiktok_script` (server.py 566), so the page the run is driving is
closed and replaced. -/
theorem startScript_busy_recreates_page_cx :
    (handleStartScript busyState).2 =
        [OutMsg.scriptStatus .error "脚本已在运行中"] ∧
    (handleStartScript busyState).1.taskCount = busyState.taskCount ∧
    (handleStartScript busyState).1.page ≠ busyState.page ∧
    0 ∈ (handleStartScript busyState).1.closedPages := by
  refine ⟨rfl, rfl, by decide, by decide⟩

/-- Claim C1 (amended): whenever the running flag is set, a `start-script`
command yields exactly the one busy `error` status event, creates no second
background task, and leaves the running flag set; however the page handle is
recreated before the busy check — the old page (the in-flight run's) is
closed and the state's page handle becomes a fresh page. -/
theorem startScript_busy_rejection (s : ServerState)
    (h : s.scriptRunning = true) :
    (handleStartScript s).2 = [OutMsg.scriptStatus .error "脚本已在运行中"] ∧
    (handleStartScript s).1.scriptRunning = true ∧
    (handleStartScript s).1.taskCount = s.taskCount ∧
    (handleStartScript s).1.page = some s.nextPageId ∧
    (∀ p, s.page = some p → p ∈ (handleStartScript s).1.closedPages) := by
  have he : handleStartScript s =
      (createNewPage s, [OutMsg.scriptStatus .error "脚本已在运行中"]) := by
    unfold handleStartScript startTiktokScript
    rw [if_pos (show (createNewPage s).scriptRunning = true from h)]
  rw [he]
  refine ⟨rfl, h, rfl, rfl, ?_⟩
  intro p hp
  simp [createNewPage, hp]

/-- Witness for `startScript_busy_rejection` at the concrete busy state. -/
theorem startScript_busy_rejection_w :
    (handleStartScript busyState).2 =
        [OutMsg.scriptStatus .error "脚本已在运行中"] ∧
    (handleStartScript busyState).1.scriptRunning = true ∧
    (handleStartScript busyState).1.taskCount = busyState.taskCount ∧
    (handleStartScript busyState).1.page = some busyState.nextPageId ∧
    (∀ p, busyState.page = some p →
        p ∈ (handleStartScript busyState).1.closedPages) :=
  startScript_busy_rejection busyState rfl

/-- Claim C4: whatever the page state, the cookie-load outcome, and the
script's termination (normal completion, a caught `Exception`, or a
`BaseException` that bypasses the handler), the `finally` block of
`run_tiktok_script_with_updates` leaves `script_running = False` and
`script_task = None` after the run settles. -/
theorem script_running_cleared_on_settle (s : ServerState) (env : RunEnv) :
    (runTiktokScriptWithUpdates s env).1.scriptRunning = false ∧
    (runTiktokScriptWithUpdates s env).1.scriptTaskLive = false := by
  obtain ⟨cf, oc⟩ := env
  rcases hp : s.page with _ | p <;> rcases oc <;>
    simp [runTiktokScriptWithUpdates, hp]

/-- Claim C5: `take_screenshot` is total toward its caller — for every
pattern of capture failures it returns image bytes rather than raising, and
when both the live capture and the recreate-and-retry capture throw, the
result is the blank placeholder of the standard 1280x720 viewport size. -/
theorem takeScreenshot_total_placeholder :
    (∀ env : ScreenshotEnv, ∃ img, takeScreenshot env = Except.ok img) ∧
    (∀ e1 e2 : String,
        takeScreenshot ⟨Except.error e1, Except.error e2⟩ =
          Except.ok (ImageBytes.placeholder 1280 720)) := by
  constructor
  · intro env
    obtain ⟨f, r⟩ := env
    cases f <;> cases r <;> exact ⟨_, rfl⟩
  · intro e1 e2
    rfl

/-- Helper: `take_screenshot` always produces a result (shared by the
navigate-handler proofs). -/
lemma takeScreenshot_ok (env : ScreenshotEnv) :
    ∃ img, takeScreenshot env = Except.ok img := by
  obtain ⟨f, r⟩ := env
  cases f <;> cases r <;> exact ⟨_, rfl⟩

/-- Claim C6 (counterexample): on a successful `navigate`, `navigate_to_url`
performs a single `goto` with `wait_until='domcontentloaded'` and a 15s
timeout (server.py 457-459) — there is no two-tier network-idle / load wait
fallback: the one wait condition used is neither `networkidle` nor `load`. -/
theorem navigate_wait_is_domcontentloaded_cx :
    (navigateToUrl "https://example.test" ⟨false, false⟩).1 =
      [NavOp.ensureReady,
       NavOp.gotoCall
         { url := "https://example.test", waitUntil := .domcontentloaded,
           timeoutMs := 15000 }] ∧
    WaitUntil.domcontentloaded ≠ WaitUntil.networkidle ∧
    WaitUntil.domcontentloaded ≠ WaitUntil.load :=
  ⟨rfl, by decide, by decide⟩

/-- Claim C6 (amended): for every `navigate(url)` command that succeeds, the
dispatcher recreates the page, ensures the browser is ready, navigates with
a single bounded DOM-content-loaded wait (15s timeout) — not a
network-idle / load two-tier fallback — retrying the `goto` exactly once via
full page recreation if the first attempt throws, and then sends exactly two
outbound messages in order: `navigation-complete` followed by a `screenshot`
event. -/
theorem navigate_success_two_messages (url : String) (env : NavEnv)
    (shot : ScreenshotEnv) (h : env.retryGotoFails = false) :
    (∃ img, (handleNavigate url env shot).2 =
        [OutMsg.navigationComplete url, OutMsg.screenshot img]) ∧
    (handleNavigate url env shot).1 =
      (if env.firstGotoFails then
        [NavOp.newPage, NavOp.ensureReady, NavOp.gotoCall (navGoto url),
         NavOp.newPage, NavOp.gotoCall (navGoto url)]
       else
        [NavOp.newPage, NavOp.ensureReady, NavOp.gotoCall (navGoto url)]) ∧
    (navGoto url).waitUntil = .domcontentloaded ∧
    (navGoto url).timeoutMs = 15000 := by
  obtain ⟨ff, rf⟩ := env
  simp only at h
  subst h
  obtain ⟨img, himg⟩ := takeScreenshot_ok shot
  cases ff <;>
    refine ⟨⟨img, ?_⟩, ?_, rfl, rfl⟩ <;>
      simp [handleNavigate, navigateToUrl, himg]

/-- Witness for `navigate_success_two_messages`: first `goto` fails, the
retry after page recreation succeeds. -/
theorem navigate_success_two_messages_w :
    (∃ img,
        (handleNavigate "https://example.test" ⟨true, false⟩
            ⟨Except.ok (ImageBytes.live 0), Except.ok (ImageBytes.live 0)⟩).2 =
          [OutMsg.navigationComplete "https://example.test",
           OutMsg.screenshot img]) ∧
    (handleNavigate "https://example.test" ⟨true, false⟩
        ⟨Except.ok (ImageBytes.live 0), Except.ok (ImageBytes.live 0)⟩).1 =
      [NavOp.newPage, NavOp.ensureReady,
       NavOp.gotoCall (navGoto "https://example.test"),
       NavOp.newPage, NavOp.gotoCall (navGoto "https://example.test")] := by
  have h := navigate_success_two_messages "https://example.test" ⟨true, false⟩
    ⟨Except.ok (ImageBytes.live 0), Except.ok (ImageBytes.live 0)⟩ rfl
  exact ⟨h.1, by simpa using h.2.1⟩

/-- Helper: the body of one retry-loop iteration never lets an exception
escape — both the goto-success path (whose stabilization ladder catches
everything) and the goto-failure handler return a `page_loaded` value. -/
lemma attemptBody_ok (rc : Nat) (env : NavAttemptEnv) :
    ∃ pl, attemptBody rc env = Except.ok pl := by
  unfold attemptBody gotoRaw
  cases h : env.gotoFails <;> simp [h]

/-- Helper: the retry loop returns normally and its `goto` trace extends the
input trace by consecutive entries of the three-step ladder, at most `fuel`
of them, starting at position `retry_count`. -/
lemma navLoop_trace (envs : Nat → NavAttemptEnv) :
    ∀ fuel rc pl tr, ∃ pl' k, k ≤ fuel ∧
      navLoop envs fuel rc pl tr =
        Except.ok (pl', tr ++ (ladderCalls.drop rc).take k) := by
  intro fuel
  induction fuel with
  | zero =>
      intro rc pl tr
      exact ⟨pl, 0, Nat.le_refl 0, by simp [navLoop]⟩
  | succ fuel ih =>
      intro rc pl tr
      by_cases hg : rc < 3 ∧ pl = false
      · obtain ⟨pl1, hb⟩ := attemptBody_ok (rc + 1) (envs (rc + 1))
        obtain ⟨pl', k', hk', hrec⟩ := ih (rc + 1) pl1 (tr ++ [attemptCall (rc + 1)])
        refine ⟨pl', k' + 1, by omega, ?_⟩
        have hstep : [attemptCall (rc + 1)] ++ (ladderCalls.drop (rc + 1)).take k' =
            (ladderCalls.drop rc).take (k' + 1) := by
          have hrc : rc < 3 := hg.1
          interval_cases rc <;>
            simp [attemptCall, ladderCalls, List.take_succ_cons]
        rw [navLoop, if_pos hg, hb]
        dsimp only
        rw [hrec, List.append_assoc, hstep]
      · exact ⟨pl, 0, Nat.zero_le _, by rw [navLoop, if_neg hg]; simp⟩

/-- Claim C7: for every pattern of goto/stabilization failures, the initial
navigation of the workflow performs at most three `goto` attempts, the i-th
attempt taken from the strictly escalating ladder (DOM-content-loaded with a
90s bound, then full load with 120s, then connection-commit with 150s), and
the step always returns normally — the run proceeds to the next step even
when `page_loaded` is still false. -/
theorem initial_navigation_retry_ladder (envs : Nat → NavAttemptEnv) :
    ∃ pl k, k ≤ 3 ∧
      initialNavigation envs = Except.ok (pl, ladderCalls.take k) ∧
      ladderCalls =
        [ { url := homepageUrl, waitUntil := .domcontentloaded, timeoutMs := 90000 },
          { url := homepageUrl, waitUntil := .load, timeoutMs := 120000 },
          { url := homepageUrl, waitUntil := .commit, timeoutMs := 150000 } ] := by
  obtain ⟨pl, k, hk, h⟩ := navLoop_trace envs 3 0 false []
  exact ⟨pl, k, hk, by simpa using h, rfl⟩


/-- Helper: every Gregorian month has at least 28 days. -/
lemma daysInMonth_ge (y m : Nat) : 28 ≤ daysInMonth y m := by
  unfold daysInMonth
  split
  · split <;> omega
  · split <;> omega

/-- Helper: unfolding one day of the subtraction. -/
lemma subDays_succ (d : Date) (n : Nat) :
    subDays d (n + 1) = subDays (predDate d) n := rfl

/-- Helper: the calendar predecessor inside a month. -/
lemma predDate_of_ge (yy mm d : Nat) (h : 2 ≤ d) :
    predDate ⟨yy, mm, d⟩ = ⟨yy, mm, d - 1⟩ := by
  unfold predDate
  rw [if_pos (show 2 ≤ (Date.mk yy mm d).day from h)]

/-- Helper: the calendar predecessor of the first of a month borrows the
last day of the previous month. -/
lemma predDate_borrow (yy mm : Nat) :
    predDate ⟨yy, mm, 1⟩ =
      ⟨(prevMonthOf yy mm).1, (prevMonthOf yy mm).2,
       daysInMonth (prevMonthOf yy mm).1 (prevMonthOf yy mm).2⟩ := by
  unfold predDate
  split
  · next h => exact absurd (show (2 : Nat) ≤ 1 from h) (by decide)
  · rfl

/-- Helper: staying inside one month, subtracting `n` days subtracts `n`
from the day number as long as at least day 1 remains. -/
lemma subDays_in_month (yy mm : Nat) :
    ∀ n d, n + 1 ≤ d → subDays ⟨yy, mm, d⟩ n = ⟨yy, mm, d - n⟩ := by
  intro n
  induction n with
  | zero =>
      intro d _
      simp [subDays]
  | succ k ih =>
      intro d hd
      have e : subDays (⟨yy, mm, d⟩ : Date) (k + 1) =
          subDays (predDate ⟨yy, mm, d⟩) k := subDays_succ _ _
      rw [e, predDate_of_ge yy mm d (by omega), ih (d - 1) (by omega)]
      have : d - 1 - k = d - (k + 1) := by omega
      rw [this]

/-- Claim C8: when today is day 3 of any month, the workflow's date window
is the pair of day-of-month integers (3, days-in-previous-month − 4): the
`timedelta(days=7)` subtraction carries correctly across the month boundary
before the bare `.day` integer is extracted. -/
theorem dateWindow_cross_month (y m : Nat) (_hm1 : 1 ≤ m) (_hm2 : m ≤ 12) :
    dateWindow ⟨y, m, 3⟩ =
      (3, daysInMonth (prevMonthOf y m).1 (prevMonthOf y m).2 - 4) := by
  have hD : 28 ≤ daysInMonth (prevMonthOf y m).1 (prevMonthOf y m).2 :=
    daysInMonth_ge _ _
  have a1 : subDays ⟨y, m, 3⟩ 7 = subDays ⟨y, m, 2⟩ 6 := by
    have e : subDays (⟨y, m, 3⟩ : Date) 7 =
        subDays (predDate ⟨y, m, 3⟩) 6 := subDays_succ _ 6
    rw [e, predDate_of_ge y m 3 (by omega)]
  have a2 : subDays ⟨y, m, 2⟩ 6 = subDays ⟨y, m, 1⟩ 5 := by
    have e : subDays (⟨y, m, 2⟩ : Date) 6 =
        subDays (predDate ⟨y, m, 2⟩) 5 := subDays_succ _ 5
    rw [e, predDate_of_ge y m 2 (by omega)]
  have a3 : subDays ⟨y, m, 1⟩ 5 =
      subDays ⟨(prevMonthOf y m).1, (prevMonthOf y m).2,
        daysInMonth (prevMonthOf y m).1 (prevMonthOf y m).2⟩ 4 := by
    have e : subDays (⟨y, m, 1⟩ : Date) 5 =
        subDays (predDate ⟨y, m, 1⟩) 4 := subDays_succ _ 4
    rw [e, predDate_borrow y m]
  have a4 : subDays ⟨(prevMonthOf y m).1, (prevMonthOf y m).2,
        daysInMonth (prevMonthOf y m).1 (prevMonthOf y m).2⟩ 4 =
      ⟨(prevMonthOf y m).1, (prevMonthOf y m).2,
        daysInMonth (prevMonthOf y m).1 (prevMonthOf y m).2 - 4⟩ :=
    subDays_in_month _ _ 4 _ (by omega)
  unfold dateWindow
  rw [a1, a2, a3, a4]

/-- Witness for `dateWindow_cross_month`: on 2026-03-03 the window is
(3, 24) — February 2026 has 28 days and 28 − 4 = 24. -/
theorem dateWindow_cross_month_w : dateWindow ⟨2026, 3, 3⟩ = (3, 24) :=
  (dateWindow_cross_month 2026 3 (by omega) (by omega)).trans (by decide)

/-- Claim C9: a `clear-cookies` command arriving with no page handle
(`self.page = None`) raises nothing to the connection handler and replies
with a single `cookie-clear-result` message whose `success` is `false`,
whatever the state of the cookie-clearing capability. -/
theorem clearCookies_no_page_safe :
    ∀ b : Bool, clearCookies none b =
      Except.ok [OutMsg.cookieClearResult false "清空cookies失败: AttributeError"] := by
  intro b
  rfl

/-- Claim C10: `low_quality` preserves the pixel dimensions of every input
image — it downsamples to 70% of each dimension and resizes back to the
original size before re-encoding, so width and height are unchanged. -/
theorem lowQuality_preserves_dimensions (img : PILImage) :
    (lowQuality img).width = img.width ∧ (lowQuality img).height = img.height := by
  obtain ⟨w, h, mo⟩ := img
  cases mo <;> simp [lowQuality, resize]
